import Mathlib

/-!
Shallow embedding of the user repository in `repository/user_repository.go`
(package `repository` of the testcontainers demo), together with the model
of the PostgreSQL store it talks to (table `users(id SERIAL PRIMARY KEY,
email UNIQUE NOT NULL, name NOT NULL, created_at TIMESTAMP DEFAULT
CURRENT_TIMESTAMP)` from `migrations/init.sql`).

The store is modelled as an explicit state `DB`: the live rows, the next
value of the `id` sequence, and the store clock `now` (seconds).  Timestamps
are seconds as `Nat`; a PostgreSQL `INTERVAL 'd days'` is `d * 86400`
seconds.  Go `error` values are modelled by `GoErr`, keeping the wrapping
structure of `fmt.Errorf`: `%w`-wrapping becomes `GoErr.wrap`, a plain
`fmt.Errorf` message becomes `GoErr.msg`, and the sentinel values
`sql.ErrNoRows` and the pq unique-constraint violation are constructors.
Go slices are modelled as `Option (List α)`: `none` is Go's nil slice (the
zero value of a slice variable), `some l` a non-nil slice holding `l`;
Go's `append` on a nil slice allocates, yielding `some`.

Each method's SQL text is also embedded as a `String`, exactly the constant
the Go code passes to `database/sql`; `GetRecentUsers` builds its text with
`fmt.Sprintf(query, days)`, which the embedding reproduces by string
concatenation with `toString days` (Go's `%d`).

The model assumes a healthy store: connectivity failures and scan failures
of `database/sql` are not modelled, so the only failures are the no-rows /
zero-rows-affected conditions and unique-constraint violations, which is
what the verified claims are about.
-/

/-- The User entity (`models/user.go`): `ID`, `Email`, `Name`, `CreatedAt`.
`created_at` is seconds since an arbitrary epoch. -/
structure User where
  id : Nat
  email : String
  name : String
  created_at : Nat
  deriving DecidableEq, Repr

/-- The PostgreSQL store state backing the repository: the live rows of the
`users` table, the next value of the `id` sequence (`SERIAL`), and the
store's own clock `NOW()` in seconds. -/
structure DB where
  rows : List User
  nextId : Nat
  now : Nat
  deriving DecidableEq, Repr

/-- Go error values as shaped by this repository: the `sql.ErrNoRows`
sentinel, the pq unique-constraint violation, a fresh `fmt.Errorf` message
(no `%w`), and a `fmt.Errorf("...: %w", err)` wrapping. -/
inductive GoErr where
  | errNoRows : GoErr
  | pqUniqueViolation : GoErr
  | msg (s : String) : GoErr
  | wrap (s : String) (cause : GoErr) : GoErr
  deriving DecidableEq, Repr

/-- Go's `errors.Unwrap`: only a `%w`-wrapped error exposes its cause. -/
def GoErr.unwrap : GoErr → Option GoErr
  | .wrap _ c => some c
  | _ => none

/-- Go's `errors.Is`: equality along the `Unwrap` chain. -/
def errorsIs : GoErr → GoErr → Bool
  | .wrap s c, target => (GoErr.wrap s c == target) || errorsIs c target
  | e, target => e == target

/-- An error counts as a constraint violation when `errors.Is` reaches the
pq unique-violation cause through the wrap chain. -/
def isConstraintViolation (e : GoErr) : Bool :=
  errorsIs e GoErr.pqUniqueViolation

/-- SQL text of `GetByID` (user_repository.go line 21). -/
def getByIDQuery : String :=
  "SELECT id, email, name, created_at FROM users WHERE id = $1"

/-- SQL text of `GetByEmail` (line 43). -/
def getByEmailQuery : String :=
  "SELECT id, email, name, created_at FROM users WHERE email = $1"

/-- SQL text of `Update` (line 88). -/
def updateQuery : String :=
  "UPDATE users SET email = $1, name = $2 WHERE id = $3"

/-- SQL text of `Delete` (line 109). -/
def deleteQuery : String :=
  "DELETE FROM users WHERE id = $1"

/-- SQL text of `List` (line 130). -/
def listQuery : String :=
  "SELECT id, email, name, created_at FROM users ORDER BY id"

/-- SQL text of `FindByNamePattern` (line 157). -/
def findByNamePatternQuery : String :=
  "SELECT id, email, name, created_at FROM users WHERE name ILIKE $1 ORDER BY id"

/-- SQL text of `CountUsers` (line 184). -/
def countUsersQuery : String :=
  "SELECT COUNT(*) FROM users"

/-- The part of `GetRecentUsers`'s raw-string query before the `%d` verb
(lines 197-200); `\x27` is the ASCII single quote. -/
def getRecentUsersQueryPre : String :=
  "\n\t\tSELECT id, email, name, created_at \n\t\tFROM users \n\t\tWHERE created_at >= NOW() - INTERVAL \x27"

/-- The part of `GetRecentUsers`'s raw-string query after the `%d` verb
(lines 200-202). -/
def getRecentUsersQueryPost : String :=
  " days\x27\n\t\tORDER BY created_at DESC\n\t"

/-- The statement text `GetRecentUsers` sends to the store:
`fmt.Sprintf(query, days)` (line 204), i.e. the day count is formatted
directly into the SQL text. -/
def getRecentUsersQuery (days : Int) : String :=
  getRecentUsersQueryPre ++ toString days ++ getRecentUsersQueryPost

/-- Go `append` of one element to a slice: a nil slice allocates. -/
def goSliceAppend (s : Option (List User)) (u : User) : Option (List User) :=
  some (s.getD [] ++ [u])

/-- The row-scanning loop shared by `List`, `FindByNamePattern` and
`GetRecentUsers`: `var users []models.User` (nil) then `users =
append(users, user)` per row, in the order the store delivers them. -/
def collectRows (l : List User) : Option (List User) :=
  l.foldl goSliceAppend none

/-- The sequence a Go slice denotes (nil and empty both denote `[]`). -/
def sliceList (s : Option (List User)) : List User :=
  s.getD []

/-- `len` of a Go slice. -/
def sliceLen (s : Option (List User)) : Nat :=
  (sliceList s).length

/-- Whether a Go slice is literally `nil`. -/
def isNilSlice : Option (List User) → Bool
  | none => true
  | some _ => false

/-- Row order produced by `ORDER BY id`. -/
def byIdLe : User → User → Prop := fun a b => a.id ≤ b.id

instance : DecidableRel byIdLe := fun a b => Nat.decLe a.id b.id

instance : IsTotal User byIdLe := ⟨fun a b => Nat.le_total a.id b.id⟩

instance : IsTrans User byIdLe := ⟨fun _ _ _ h h2 => Nat.le_trans h h2⟩

/-- Row order produced by `ORDER BY created_at DESC`. -/
def byCreatedDesc : User → User → Prop := fun a b => b.created_at ≤ a.created_at

instance : DecidableRel byCreatedDesc := fun a b => Nat.decLe b.created_at a.created_at

instance : IsTotal User byCreatedDesc := ⟨fun a b => Nat.le_total b.created_at a.created_at⟩

instance : IsTrans User byCreatedDesc := ⟨fun _ _ _ h h2 => Nat.le_trans h2 h⟩

/-- The store's `ORDER BY id` on a result set (stable sort). -/
def sortById (l : List User) : List User :=
  List.insertionSort byIdLe l

/-- The store's `ORDER BY created_at DESC` on a result set (stable sort). -/
def sortByCreatedDesc (l : List User) : List User :=
  List.insertionSort byCreatedDesc l

/-- SQL `LIKE` pattern matching over characters: `%` matches any run,
`_` any single character, anything else itself. -/
def likeMatch : List Char → List Char → Bool
  | [], s => s.isEmpty
  | '%' :: ps, [] => likeMatch ps []
  | '%' :: ps, c :: cs => likeMatch ps (c :: cs) || likeMatch ('%' :: ps) cs
  | '_' :: _, [] => false
  | '_' :: ps, _ :: cs => likeMatch ps cs
  | _ :: _, [] => false
  | p :: ps, c :: cs => (p == c) && likeMatch ps cs

/-- PostgreSQL `ILIKE`: case-insensitive `LIKE` (both sides folded). -/
def ilike (s pattern : String) : Bool :=
  likeMatch pattern.toLower.toList s.toLower.toList

/-- `GetByID` (lines 20-39): `SELECT ... WHERE id = $1` via `QueryRow`;
`sql.ErrNoRows` becomes the fresh error `fmt.Errorf("user not found")`
(line 32, no `%w`). -/
def GetByID (db : DB) (id : Nat) : Except GoErr User :=
  match db.rows.find? (fun u => u.id == id) with
  | some u => Except.ok u
  | none => Except.error (GoErr.msg "user not found")

/-- `GetByEmail` (lines 42-61): same shape keyed on the unique email. -/
def GetByEmail (db : DB) (email : String) : Except GoErr User :=
  match db.rows.find? (fun u => u.email == email) with
  | some u => Except.ok u
  | none => Except.error (GoErr.msg "user not found")

/-- `Create` (lines 64-84): `INSERT ... RETURNING id, email, name,
created_at`.  The store assigns `id` from the sequence and `created_at`
from its clock; a duplicate email raises the pq unique violation, which the
Go code wraps as `fmt.Errorf("failed to create user: %w", err)` (line 80).
The pair returns the resulting store state (unchanged on failure: the
statement is atomic). -/
def Create (db : DB) (email name : String) : Except GoErr User × DB :=
  if db.rows.any (fun u => u.email == email) then
    (Except.error (GoErr.wrap "failed to create user" GoErr.pqUniqueViolation), db)
  else
    let u : User := ⟨db.nextId, email, name, db.now⟩
    (Except.ok u, ⟨db.rows ++ [u], db.nextId + 1, db.now⟩)

/-- `Update` (lines 87-105): `UPDATE users SET email = $1, name = $2 WHERE
id = $3` via `Exec`; `RowsAffected() == 0` becomes the fresh error
`fmt.Errorf("user not found")` (line 101); setting the email to another
live row's email raises the pq unique violation, wrapped as
`fmt.Errorf("failed to update user: %w", err)` (line 92). -/
def Update (db : DB) (id : Nat) (email name : String) : Except GoErr Unit × DB :=
  if db.rows.countP (fun u => u.id == id) = 0 then
    (Except.error (GoErr.msg "user not found"), db)
  else if db.rows.any (fun u => u.email == email && !(u.id == id)) then
    (Except.error (GoErr.wrap "failed to update user" GoErr.pqUniqueViolation), db)
  else
    (Except.ok (),
      ⟨db.rows.map (fun u => if u.id == id then ⟨u.id, email, name, u.created_at⟩ else u),
        db.nextId, db.now⟩)

/-- `Delete` (lines 108-126): `DELETE FROM users WHERE id = $1` via `Exec`;
`RowsAffected() == 0` becomes the fresh error `fmt.Errorf("user not
found")` (line 122). -/
def Delete (db : DB) (id : Nat) : Except GoErr Unit × DB :=
  if db.rows.countP (fun u => u.id == id) = 0 then
    (Except.error (GoErr.msg "user not found"), db)
  else
    (Except.ok (), ⟨db.rows.filter (fun u => !(u.id == id)), db.nextId, db.now⟩)

/-- `List` (lines 129-153, named `List` in Go): `SELECT ... ORDER BY id`,
rows appended to an initially nil slice. -/
def ListUsers (db : DB) : Except GoErr (Option (List User)) :=
  Except.ok (collectRows (sortById db.rows))

/-- `FindByNamePattern` (lines 156-180): `SELECT ... WHERE name ILIKE $1
ORDER BY id`, rows appended to an initially nil slice. -/
def FindByNamePattern (db : DB) (pattern : String) : Except GoErr (Option (List User)) :=
  Except.ok (collectRows (sortById (db.rows.filter (fun u => ilike u.name pattern))))

/-- `CountUsers` (lines 183-193): `SELECT COUNT(*) FROM users`. -/
def CountUsers (db : DB) : Except GoErr Nat :=
  Except.ok db.rows.length

/-- The cutoff `NOW() - INTERVAL 'days days'` computed by the store's own
clock; for negative `days` the cutoff lies in the future. -/
def recentCutoff (db : DB) (days : Int) : Int :=
  (db.now : Int) - days * 86400

/-- `GetRecentUsers` (lines 196-225): executes
`fmt.Sprintf(query, days)` — the formatted text `getRecentUsersQuery days` —
selecting `created_at >= NOW() - INTERVAL 'days days'` ordered by
`created_at DESC`, rows appended to an initially nil slice.  No validation
of `days` happens anywhere. -/
def GetRecentUsers (db : DB) (days : Int) : Except GoErr (Option (List User)) :=
  Except.ok (collectRows (sortByCreatedDesc
    (db.rows.filter (fun u => decide (recentCutoff db days ≤ (u.created_at : Int))))))

/-- Store invariants guaranteed by the schema: the `SERIAL` sequence starts
at 1 and stays above every assigned id, ids are unique (PRIMARY KEY) and
emails are unique (UNIQUE constraint). -/
def DB.WF (db : DB) : Prop :=
  0 < db.nextId ∧ (∀ u ∈ db.rows, u.id < db.nextId) ∧
    (db.rows.map User.id).Nodup ∧ (db.rows.map User.email).Nodup

instance (db : DB) : Decidable db.WF :=
  inferInstanceAs (Decidable (0 < db.nextId ∧ (∀ u ∈ db.rows, u.id < db.nextId) ∧
    (db.rows.map User.id).Nodup ∧ (db.rows.map User.email).Nodup))

/-- Once the Go slice is non-nil, the scan loop keeps appending. -/
theorem foldl_goSliceAppend (l acc : List User) :
    l.foldl goSliceAppend (some acc) = some (acc ++ l) := by
  induction l generalizing acc with
  | nil => simp
  | cons u us ih =>
    simp only [List.foldl_cons, goSliceAppend, Option.getD_some, ih]
    simp

/-- The scan loop on a nonempty result set returns the rows, non-nil. -/
theorem collectRows_cons (u : User) (us : List User) :
    collectRows (u :: us) = some (u :: us) := by
  simp [collectRows, goSliceAppend, foldl_goSliceAppend]

/-- The scan loop returns exactly the delivered rows as a sequence. -/
theorem sliceList_collectRows (l : List User) : sliceList (collectRows l) = l := by
  cases l with
  | nil => rfl
  | cons u us => simp [collectRows_cons, sliceList]

/-- The scan loop leaves the slice nil exactly on an empty result set. -/
theorem collectRows_eq_none_iff (l : List User) : collectRows l = none ↔ l = [] := by
  cases l with
  | nil => simp [collectRows]
  | cons u us => simp [collectRows_cons]

/-- `find?` skips a prefix on which the predicate is false everywhere. -/
theorem find?_append_of_forall_false {p : User → Bool} {l₁ l₂ : List User}
    (h : ∀ x ∈ l₁, p x = false) : (l₁ ++ l₂).find? p = l₂.find? p := by
  induction l₁ with
  | nil => rfl
  | cons a l ih =>
    have ha := h a (List.mem_cons_self a l)
    simp only [List.cons_append, List.find?, ha]
    exact ih fun x hx => h x (List.mem_cons_of_mem a hx)

/-- `ORDER BY id` permutes the result set. -/
theorem sortById_perm (l : List User) : List.Perm (sortById l) l :=
  List.perm_insertionSort byIdLe l

/-- `ORDER BY id` sorts by ascending id. -/
theorem sortById_sorted (l : List User) :
    (sortById l).Pairwise (fun a b => a.id ≤ b.id) :=
  List.sorted_insertionSort byIdLe l

/-- `ORDER BY created_at DESC` permutes the result set. -/
theorem sortByCreatedDesc_perm (l : List User) : List.Perm (sortByCreatedDesc l) l :=
  List.perm_insertionSort byCreatedDesc l

/-- `ORDER BY created_at DESC` sorts by descending creation time. -/
theorem sortByCreatedDesc_sorted (l : List User) :
    (sortByCreatedDesc l).Pairwise (fun a b => b.created_at ≤ a.created_at) :=
  List.sorted_insertionSort byCreatedDesc l

/-- On a result set with pairwise-distinct ids, `ORDER BY id` sorts by
strictly ascending id. -/
theorem sortById_strict (l : List User) (h : (l.map User.id).Nodup) :
    (sortById l).Pairwise (fun a b => a.id < b.id) := by
  have hperm : List.Perm (sortById l) l := sortById_perm l
  have hnd : ((sortById l).map User.id).Nodup :=
    ((hperm.map User.id).nodup_iff).mpr h
  have hne : (sortById l).Pairwise (fun a b => a.id ≠ b.id) :=
    (List.pairwise_map).mp hnd
  have hle := sortById_sorted l
  exact (hle.and hne).imp fun hab => Nat.lt_of_le_of_ne hab.1 hab.2

/-- C1: the claim states that every repository operation sends SQL statement
text that is a fixed constant independent of the caller-supplied argument
values.  `GetRecentUsers` builds its statement with `fmt.Sprintf(query,
days)`, so the text sent to the store varies with `days`: the texts for
`days = 1` and `days = 2` differ. -/
theorem C1_recent_sql_text_depends_on_days :
    getRecentUsersQuery 1 ≠ getRecentUsersQuery 2 := by
  decide

/-- C2 counterexample: `GetByID` on an empty store returns the fresh error
`fmt.Errorf("user not found")`; that error exposes no wrapped cause
(`errors.Unwrap` yields nothing) and `errors.Is(err, sql.ErrNoRows)` is
false, so the original no-rows cause is discarded, contrary to the claim. -/
theorem C2_counterexample :
    GetByID ⟨[], 1, 0⟩ 7 = Except.error (GoErr.msg "user not found") ∧
    GoErr.unwrap (GoErr.msg "user not found") = none ∧
    errorsIs (GoErr.msg "user not found") GoErr.errNoRows = false :=
  ⟨rfl, rfl, by decide⟩

/-- C2 amended: driver-level failures are wrapped with a message naming the
operation and keep their cause unwrappable (`Create` on a duplicate email
returns `failed to create user: %w` around the unique violation, and
`errors.Is` still reaches the cause), but the NotFound failures of
`GetByID`, `GetByEmail`, `Update` and `Delete` are newly created
`user not found` errors that neither name the operation nor wrap the
underlying `sql.ErrNoRows` / zero-rows condition. -/
theorem C2_amended_error_shapes (db : DB) (id : Nat) (qemail email name : String)
    (eG eE eU eD eC : GoErr)
    (hG : GetByID db id = Except.error eG)
    (hE : GetByEmail db qemail = Except.error eE)
    (hU : (Update db id email name).1 = Except.error eU)
    (hD : (Delete db id).1 = Except.error eD)
    (hC : (Create db email name).1 = Except.error eC) :
    eG = GoErr.msg "user not found" ∧ GoErr.unwrap eG = none ∧
    eE = GoErr.msg "user not found" ∧
    eU = GoErr.msg "user not found" ∧
    eD = GoErr.msg "user not found" ∧
    eC = GoErr.wrap "failed to create user" GoErr.pqUniqueViolation ∧
    errorsIs eC GoErr.pqUniqueViolation = true := by
  have hfind : db.rows.find? (fun u => u.id == id) = none := by
    cases hf : db.rows.find? (fun u => u.id == id) with
    | none => rfl
    | some u => unfold GetByID at hG; rw [hf] at hG; simp at hG
  have hGe : eG = GoErr.msg "user not found" := by
    unfold GetByID at hG; rw [hfind] at hG; simp at hG; exact hG.symm
  have hEe : eE = GoErr.msg "user not found" := by
    cases hf : db.rows.find? (fun u => u.email == qemail) with
    | none => unfold GetByEmail at hE; rw [hf] at hE; simp at hE; exact hE.symm
    | some u => unfold GetByEmail at hE; rw [hf] at hE; simp at hE
  have hcount : db.rows.countP (fun u => u.id == id) = 0 := by
    rw [List.countP_eq_zero]
    exact List.find?_eq_none.mp hfind
  have hUe : eU = GoErr.msg "user not found" := by
    unfold Update at hU; rw [if_pos hcount] at hU; simp at hU; exact hU.symm
  have hDe : eD = GoErr.msg "user not found" := by
    unfold Delete at hD; rw [if_pos hcount] at hD; simp at hD; exact hD.symm
  have hCe : eC = GoErr.wrap "failed to create user" GoErr.pqUniqueViolation := by
    cases hany : db.rows.any (fun u => u.email == email) with
    | true => unfold Create at hC; rw [hany] at hC; simp at hC; exact hC.symm
    | false => unfold Create at hC; rw [hany] at hC; simp at hC
  subst hGe hCe
  exact ⟨rfl, rfl, hEe, hUe, hDe, rfl, by decide⟩

/-- C2 witness: the concrete error shapes delivered by the amended theorem
at a one-row store (missing id 2, duplicate email "a"). -/
theorem C2_amended_witness :
    errorsIs (GoErr.wrap "failed to create user" GoErr.pqUniqueViolation)
      GoErr.pqUniqueViolation = true ∧
    GoErr.unwrap (GoErr.msg "user not found") = none := by
  have h := C2_amended_error_shapes ⟨[⟨1, "a", "A", 0⟩], 2, 0⟩ 2 "b" "a" "B"
      (GoErr.msg "user not found") (GoErr.msg "user not found") (GoErr.msg "user not found")
      (GoErr.msg "user not found") (GoErr.wrap "failed to create user" GoErr.pqUniqueViolation)
      rfl rfl rfl rfl rfl
  exact ⟨h.2.2.2.2.2.2, h.2.1⟩

/-- C5: creating a user with an email already present fails with the
wrapped unique-constraint violation — recognisable as a constraint
violation through the wrap chain and distinct from the NotFound error —
and the store state (in particular the pre-existing row) is unchanged. -/
theorem C5_duplicate_email_rejected (db : DB) (email name : String)
    (hdup : ∃ u ∈ db.rows, u.email = email) :
    Create db email name =
      (Except.error (GoErr.wrap "failed to create user" GoErr.pqUniqueViolation), db) ∧
    isConstraintViolation (GoErr.wrap "failed to create user" GoErr.pqUniqueViolation) = true ∧
    GoErr.wrap "failed to create user" GoErr.pqUniqueViolation ≠ GoErr.msg "user not found" := by
  have hany : db.rows.any (fun u => u.email == email) = true := by
    rw [List.any_eq_true]
    rcases hdup with ⟨u, hu, he⟩
    exact ⟨u, hu, by simp [he]⟩
  refine ⟨?_, by decide, by decide⟩
  unfold Create
  rw [hany]
  simp

/-- C5 witness: the duplicate-email rejection at a concrete one-row store. -/
theorem C5_witness :
    Create ⟨[⟨1, "a", "A", 0⟩], 2, 0⟩ "a" "B" =
      (Except.error (GoErr.wrap "failed to create user" GoErr.pqUniqueViolation),
        ⟨[⟨1, "a", "A", 0⟩], 2, 0⟩) :=
  (C5_duplicate_email_rejected ⟨[⟨1, "a", "A", 0⟩], 2, 0⟩ "a" "B"
    ⟨⟨1, "a", "A", 0⟩, by decide, rfl⟩).1

/-- C3: a successful `Create(email, name)` yields a user that `GetByID`
and `GetByEmail` both return unchanged, with the email and name passed in,
a non-zero store-assigned id and the store-assigned creation time. -/
theorem C3_create_then_get (db : DB) (hwf : db.WF) (email name : String)
    (u : User) (db2 : DB) (h : Create db email name = (Except.ok u, db2)) :
    GetByID db2 u.id = Except.ok u ∧ GetByEmail db2 email = Except.ok u ∧
    u.email = email ∧ u.name = name ∧ u.id ≠ 0 ∧ u.created_at = db.now := by
  have hany : db.rows.any (fun v => v.email == email) = false := by
    cases hany2 : db.rows.any (fun v => v.email == email) with
    | false => rfl
    | true => unfold Create at h; rw [hany2] at h; simp at h
  unfold Create at h
  rw [hany] at h
  simp only [Bool.false_eq_true, if_false, Prod.mk.injEq, Except.ok.injEq] at h
  obtain ⟨hu, hdb2⟩ := h
  subst hu hdb2
  have hmail : ∀ x ∈ db.rows, (fun v => v.email == email) x = false := by
    intro x hx
    have := List.any_eq_false.mp hany x hx
    simpa using this
  have hid : ∀ x ∈ db.rows, (fun v => v.id == db.nextId) x = false := by
    intro x hx
    have hlt := hwf.2.1 x hx
    simp [Nat.ne_of_lt hlt]
  refine ⟨?_, ?_, rfl, rfl, ?_, rfl⟩
  · unfold GetByID
    rw [show (DB.mk (db.rows ++ [⟨db.nextId, email, name, db.now⟩])
        (db.nextId + 1) db.now).rows = db.rows ++ [⟨db.nextId, email, name, db.now⟩] from rfl,
      find?_append_of_forall_false hid]
    simp [List.find?]
  · unfold GetByEmail
    rw [show (DB.mk (db.rows ++ [⟨db.nextId, email, name, db.now⟩])
        (db.nextId + 1) db.now).rows = db.rows ++ [⟨db.nextId, email, name, db.now⟩] from rfl,
      find?_append_of_forall_false hmail]
    simp [List.find?]
  · exact Nat.pos_iff_ne_zero.mp hwf.1

/-- C3 witness: creating into an empty store and reading the row back. -/
theorem C3_witness :
    GetByID ⟨[⟨1, "e@x", "E", 42⟩], 2, 42⟩ 1 = Except.ok ⟨1, "e@x", "E", 42⟩ :=
  (C3_create_then_get ⟨[], 1, 42⟩ (by decide) "e@x" "E" ⟨1, "e@x", "E", 42⟩
    ⟨[⟨1, "e@x", "E", 42⟩], 2, 42⟩ rfl).1

/-- C4: lookups, updates and deletes that target no stored row fail with
the NotFound error (for `Update` and `Delete` this comes from zero rows
affected, with no SQL-level error); on an existing target, `GetByID`,
`GetByEmail` and `Delete` succeed and `Update` never yields the NotFound
error. -/
theorem C4_notfound_contract (db : DB) (id : Nat) (email name qemail : String) :
    ((∀ u ∈ db.rows, u.id ≠ id) →
        GetByID db id = Except.error (GoErr.msg "user not found") ∧
        (Update db id email name).1 = Except.error (GoErr.msg "user not found") ∧
        (Delete db id).1 = Except.error (GoErr.msg "user not found")) ∧
    ((∃ u ∈ db.rows, u.id = id) →
        (∃ v, GetByID db id = Except.ok v) ∧
        (Delete db id).1 = Except.ok () ∧
        (Update db id email name).1 ≠ Except.error (GoErr.msg "user not found")) ∧
    ((∀ u ∈ db.rows, u.email ≠ qemail) →
        GetByEmail db qemail = Except.error (GoErr.msg "user not found")) ∧
    ((∃ u ∈ db.rows, u.email = qemail) →
        ∃ v, GetByEmail db qemail = Except.ok v) := by
  refine ⟨?_, ?_, ?_, ?_⟩
  · intro h
    have hfind : db.rows.find? (fun u => u.id == id) = none :=
      List.find?_eq_none.mpr fun x hx => by simpa using h x hx
    have hcount : db.rows.countP (fun u => u.id == id) = 0 :=
      List.countP_eq_zero.mpr fun x hx => by simpa using h x hx
    refine ⟨?_, ?_, ?_⟩
    · unfold GetByID; rw [hfind]
    · unfold Update; rw [if_pos hcount]
    · unfold Delete; rw [if_pos hcount]
  · intro h
    obtain ⟨u, hu, hp⟩ := h
    have hcount : db.rows.countP (fun v => v.id == id) ≠ 0 := by
      have hpos : 0 < db.rows.countP (fun v => v.id == id) :=
        List.countP_pos_iff.mpr ⟨u, hu, by simp [hp]⟩
      exact Nat.pos_iff_ne_zero.mp hpos
    refine ⟨?_, ?_, ?_⟩
    · cases hf : db.rows.find? (fun v => v.id == id) with
      | none =>
        exact absurd (List.find?_eq_none.mp hf u hu) (by simp [hp])
      | some v => exact ⟨v, by unfold GetByID; rw [hf]⟩
    · unfold Delete; rw [if_neg hcount]
    · unfold Update
      rw [if_neg hcount]
      by_cases hc : db.rows.any (fun v => v.email == email && !(v.id == id)) = true
      · rw [if_pos hc]
        intro habs
        simp at habs
      · rw [if_neg hc]
        intro habs
        simp at habs
  · intro h
    have hfind : db.rows.find? (fun u => u.email == qemail) = none :=
      List.find?_eq_none.mpr fun x hx => by simpa using h x hx
    unfold GetByEmail; rw [hfind]
  · intro h
    obtain ⟨u, hu, hp⟩ := h
    cases hf : db.rows.find? (fun v => v.email == qemail) with
    | none =>
      exact absurd (List.find?_eq_none.mp hf u hu) (by simp [hp])
    | some v => exact ⟨v, by unfold GetByEmail; rw [hf]⟩

/-- C4 witness: at a one-row store, targeting the absent id 2 yields the
NotFound error and deleting the present id 1 succeeds. -/
theorem C4_witness :
    GetByID ⟨[⟨1, "a", "A", 0⟩], 2, 0⟩ 2 = Except.error (GoErr.msg "user not found") ∧
    (Delete ⟨[⟨1, "a", "A", 0⟩], 2, 0⟩ 1).1 = Except.ok () :=
  ⟨((C4_notfound_contract ⟨[⟨1, "a", "A", 0⟩], 2, 0⟩ 2 "x" "y" "z").1 (by decide)).1,
    ((C4_notfound_contract ⟨[⟨1, "a", "A", 0⟩], 2, 0⟩ 1 "x" "y" "z").2.1
      ⟨⟨1, "a", "A", 0⟩, by decide, rfl⟩).2.1⟩

/-- C6 counterexample: on a store with no rows, `List` returns Go's nil
slice (the `var users []models.User` zero value is never appended to and
is returned as-is), so the returned value is literally nil/null even
though the claim says a null value is never returned. -/
theorem C6_counterexample :
    ListUsers ⟨[], 1, 0⟩ = Except.ok none ∧ isNilSlice none = true :=
  ⟨rfl, rfl⟩

/-- C6 amended: `List` succeeds with exactly the stored rows in strictly
ascending id order (ids are unique under the schema invariants); with no
rows it returns the nil slice — length zero and observationally an empty
sequence, but literally Go's nil rather than a non-nil empty slice. -/
theorem C6_list_sorted_complete (db : DB) (hwf : db.WF) (res : Option (List User))
    (h : ListUsers db = Except.ok res) :
    List.Perm (sliceList res) db.rows ∧
    (sliceList res).Pairwise (fun a b => a.id < b.id) ∧
    (db.rows = [] → res = none) ∧
    (db.rows ≠ [] → res = some (sliceList res)) := by
  have hres : res = collectRows (sortById db.rows) := by
    unfold ListUsers at h
    exact (Except.ok.inj h).symm
  subst hres
  refine ⟨?_, ?_, ?_, ?_⟩
  · rw [sliceList_collectRows]; exact sortById_perm db.rows
  · rw [sliceList_collectRows]; exact sortById_strict db.rows hwf.2.2.1
  · intro he; rw [he]; rfl
  · intro hne
    cases hsorted : sortById db.rows with
    | nil =>
      have hp := sortById_perm db.rows
      rw [hsorted] at hp
      exact absurd (hp.symm.eq_nil) hne
    | cons u us => simp [hsorted, collectRows_cons, sliceList]

/-- C6 witness: listing a two-row store returns both rows sorted by id. -/
theorem C6_witness :
    List.Perm (sliceList (some [⟨1, "a", "A", 3⟩, ⟨2, "b", "B", 5⟩]))
      [⟨2, "b", "B", 5⟩, ⟨1, "a", "A", 3⟩] :=
  (C6_list_sorted_complete ⟨[⟨2, "b", "B", 5⟩, ⟨1, "a", "A", 3⟩], 3, 10⟩ (by decide)
    (some [⟨1, "a", "A", 3⟩, ⟨2, "b", "B", 5⟩]) rfl).1

/-- C7: `FindByNamePattern` never fails; it returns exactly the rows whose
name matches the pattern under `ILIKE` (case-insensitive `%`/`_`
wildcards, embedded as `ilike`), ordered by ascending id, and when nothing
matches the result has no error and denotes the empty sequence. -/
theorem C7_find_by_name_pattern (db : DB) (pattern : String) :
    ∃ res, FindByNamePattern db pattern = Except.ok res ∧
      List.Perm (sliceList res) (db.rows.filter (fun u => ilike u.name pattern)) ∧
      (sliceList res).Pairwise (fun a b => a.id ≤ b.id) ∧
      (db.rows.filter (fun u => ilike u.name pattern) = [] → sliceLen res = 0) := by
  refine ⟨collectRows (sortById (db.rows.filter (fun u => ilike u.name pattern))),
    rfl, ?_, ?_, ?_⟩
  · rw [sliceList_collectRows]; exact sortById_perm _
  · rw [sliceList_collectRows]; exact sortById_sorted _
  · intro he
    unfold sliceLen
    rw [sliceList_collectRows, he]
    rfl

/-- C8: `CountUsers` always succeeds and equals the length of the sequence
`List` returns at the same store state. -/
theorem C8_count_eq_list_length (db : DB) :
    ∃ n res, CountUsers db = Except.ok n ∧ ListUsers db = Except.ok res ∧
      n = sliceLen res := by
  refine ⟨db.rows.length, collectRows (sortById db.rows), rfl, rfl, ?_⟩
  unfold sliceLen
  rw [sliceList_collectRows]
  exact ((sortById_perm db.rows).length_eq).symm

/-- C9: for positive `days`, `GetRecentUsers` returns exactly the rows
whose creation time is at least `NOW() - days * 86400` seconds by the
store's own clock, ordered by descending creation time. -/
theorem C9_recent_users (db : DB) (days : Int) (_hpos : 0 < days)
    (res : Option (List User)) (h : GetRecentUsers db days = Except.ok res) :
    List.Perm (sliceList res)
      (db.rows.filter (fun u => decide ((db.now : Int) - days * 86400 ≤ (u.created_at : Int)))) ∧
    (sliceList res).Pairwise (fun a b => b.created_at ≤ a.created_at) := by
  have hres : res = collectRows (sortByCreatedDesc (db.rows.filter
      (fun u => decide (recentCutoff db days ≤ (u.created_at : Int))))) := by
    unfold GetRecentUsers at h
    exact (Except.ok.inj h).symm
  subst hres
  constructor
  · rw [sliceList_collectRows]
    unfold recentCutoff
    exact sortByCreatedDesc_perm _
  · rw [sliceList_collectRows]
    exact sortByCreatedDesc_sorted _

/-- C9 witness: one day after a row is created it is still returned, in
descending creation order. -/
theorem C9_witness :
    (sliceList (some [⟨1, "a", "A", 100⟩])).Pairwise
      (fun a b => b.created_at ≤ a.created_at) :=
  (C9_recent_users ⟨[⟨1, "a", "A", 100⟩], 2, 86500⟩ 1 (by decide)
    (some [⟨1, "a", "A", 100⟩]) rfl).2

/-- C10: `GetRecentUsers` validates nothing: for every integer `days` —
zero and negative included — the statement text it executes is the
`fmt.Sprintf`-formatted query with `days` printed into the interval
literal, and the call succeeds (no invalid-argument error exists in the
code). -/
theorem C10_no_days_validation (db : DB) (days : Int) :
    (∃ res, GetRecentUsers db days = Except.ok res) ∧
    getRecentUsersQuery days =
      getRecentUsersQueryPre ++ toString days ++ getRecentUsersQueryPost :=
  ⟨⟨_, rfl⟩, rfl⟩
